import Mathlib

/-!
Shallow embedding of `crypto_research/dataflows/coincap_utils.py` (the
Market Data Client) and, where that module is absent from the sources,
spec-modelled definitions for the Fundamentals Client
(`coinmarketcap_utils.py`, of which only the tests are available).

Modelling conventions:
* Python machine floats are modelled by `PyNum`: a finite rational value,
  or one of the non-finite values `nan`, `posInf`, `negInf` that Python's
  `float()` produces from payloads such as `"nan"` or `"inf"`.
  Rounding of finite values is ignored; no claim here depends on it.
* A `requests.get` call together with `raise_for_status()` is modelled by
  passing the outcome (`NetOutcome`) as an explicit argument: either one of
  the three caught exception classes, or a parsed JSON body.
* Python exceptions escaping a function are modelled with `Except PyError`;
  a normal return is `Except.ok`.
* Timestamps produced by `datetime.strptime(..., "%Y-%m-%d").timestamp()`
  are modelled in UTC (the source applies the process-local timezone, a
  fixed offset shifting every bound equally; no claim depends on it).
  `datetime.fromisoformat` on a data point's date string is modelled as an
  already-decoded timeline position (an integer), or a malformed value on
  which it raises.
-/

/-- Python exceptions that the modelled code can raise or swallow. -/
inductive PyError where
  | valueError (msg : String)
  | typeError
  | keyError
deriving DecidableEq, Repr

/-- Value of a Python float: finite (idealized as a rational) or one of the
non-finite floats. `float()` never returns `None`, so there is no null case. -/
inductive PyNum where
  | finite (q : Rat)
  | nan
  | posInf
  | negInf
deriving DecidableEq, Repr

/-- Whether a Python float value is finite. -/
def PyNum.isFinite : PyNum → Bool
  | .finite _ => true
  | _ => false

/-- A JSON field fed to `datetime.fromisoformat`: either a well-formed ISO
date string, decoded to its timeline position, or a value on which
`fromisoformat` raises `ValueError`. -/
inductive JsonDate where
  | iso (t : Int)
  | malformed
deriving DecidableEq, Repr

/-- A JSON field fed to Python's `float()`: a numeric-convertible value, a
JSON null (`float(None)` raises `TypeError`), or a non-numeric value on
which `float()` raises `ValueError`. -/
inductive JsonNum where
  | num (v : PyNum)
  | null
  | malformed
deriving DecidableEq, Repr

/-- Model of `datetime.fromisoformat(x)` applied to a data point's date field. -/
def JsonDate.fromisoformat : JsonDate → Except PyError Int
  | .iso t => .ok t
  | .malformed => .error (.valueError "Invalid isoformat string")

/-- Model of Python `float(x)` applied to a data point's numeric field. -/
def JsonNum.toFloat : JsonNum → Except PyError PyNum
  | .num v => .ok v
  | .null => .error .typeError
  | .malformed => .error (.valueError "could not convert string to float")

/-- Outcome of `requests.get(...)` followed by `response.raise_for_status()`,
as distinguished by the three `except` clauses of the source: a non-2xx
status (`HTTPError`), a timeout (`Timeout`), any other request failure such
as a connection error (`RequestException`), or a parsed JSON body. -/
inductive NetOutcome (β : Type) where
  | httpError
  | timeout
  | connectionError
  | success (body : β)
deriving DecidableEq, Repr

/-- Whether the network outcome is one of the three caught failure classes. -/
def NetOutcome.isFailure : NetOutcome β → Bool
  | .success _ => false
  | _ => true

/-- Python `str.lower` restricted to ASCII letters (ticker symbols). -/
def lowerChar (c : Char) : Char :=
  if 'A' ≤ c ∧ c ≤ 'Z' then Char.ofNat (c.toNat + 32) else c

/-- Python `str.upper` restricted to ASCII letters (ticker symbols). -/
def upperChar (c : Char) : Char :=
  if 'a' ≤ c ∧ c ≤ 'z' then Char.ofNat (c.toNat - 32) else c

/-- Model of Python `symbol.lower()`. -/
def pyLower (s : String) : String := ⟨s.data.map lowerChar⟩

/-- Model of Python `symbol.upper()`. -/
def pyUpper (s : String) : String := ⟨s.data.map upperChar⟩

/-- Module constant `base_url` of `coincap_utils.py`. -/
def base_url : String := "https://rest.coincap.io"

/-- Module constant `symbol_to_slug` of `coincap_utils.py`, a static dict. -/
def symbol_to_slug : List (String × String) :=
  [("btc", "bitcoin"), ("eth", "ethereum")]

/-- Model of `symbol_to_slug.get(k, default)`. -/
def dictGetD (m : List (String × String)) (k default : String) : String :=
  match m.lookup k with
  | some v => v
  | none => default

/-!
Date conversion: `int(datetime.strptime(s, "%Y-%m-%d").timestamp() * 1000)`.
CPython's `_strptime` compiles `"%Y-%m-%d"` to the anchored regex
`(?P<Y>\d\d\d\d)-(?P<m>1[0-2]|0[1-9]|[1-9])-(?P<d>3[01]|[12]\d|0[1-9]|[1-9])`,
raises `ValueError` when it does not match or when trailing characters
remain, and the `datetime` constructor then validates the day against the
month length and the year against `MINYEAR = 1`.
-/

/-- Whether a character is an ASCII digit. -/
def isDigit (c : Char) : Bool := '0' ≤ c ∧ c ≤ '9'

/-- Numeric value of an ASCII digit. -/
def digitVal (c : Char) : Nat := c.toNat - '0'.toNat

/-- Match of the month group `1[0-2]|0[1-9]|[1-9]` (alternatives tried in
regex order) at the head of the character list; returns the month and the
rest of the input. -/
def matchMonth : List Char → Option (Nat × List Char)
  | '1' :: c :: rest =>
      if '0' ≤ c ∧ c ≤ '2' then some (10 + digitVal c, rest)
      else some (1, c :: rest)
  | '0' :: c :: rest =>
      if '1' ≤ c ∧ c ≤ '9' then some (digitVal c, rest) else none
  | c :: rest =>
      if '1' ≤ c ∧ c ≤ '9' then some (digitVal c, rest) else none
  | [] => none

/-- Match of the day group `3[01]|[12]\d|0[1-9]|[1-9]` (alternatives tried
in regex order) at the head of the character list. -/
def matchDay : List Char → Option (Nat × List Char)
  | '3' :: c :: rest =>
      if c = '0' ∨ c = '1' then some (30 + digitVal c, rest)
      else some (3, c :: rest)
  | c1 :: c2 :: rest =>
      if (c1 = '1' ∨ c1 = '2') ∧ isDigit c2 then
        some (10 * digitVal c1 + digitVal c2, rest)
      else if c1 = '0' ∧ '1' ≤ c2 ∧ c2 ≤ '9' then some (digitVal c2, rest)
      else if '1' ≤ c1 ∧ c1 ≤ '9' then some (digitVal c1, c2 :: rest)
      else none
  | [c] => if '1' ≤ c ∧ c ≤ '9' then some (digitVal c, []) else none
  | [] => none

/-- Gregorian leap-year test, as in Python's `calendar`/`datetime`. -/
def isLeap (y : Nat) : Bool := (y % 4 = 0 ∧ y % 100 ≠ 0) ∨ y % 400 = 0

/-- Number of days in a month, as validated by the `datetime` constructor. -/
def daysInMonth (y m : Nat) : Nat :=
  if m = 2 then (if isLeap y then 29 else 28)
  else if m = 4 ∨ m = 6 ∨ m = 9 ∨ m = 11 then 30
  else 31

/-- Model of `datetime.strptime(s, "%Y-%m-%d")`: the validated
(year, month, day) triple, or the `ValueError` the call raises. -/
def strptimeYmd (s : String) : Except PyError (Nat × Nat × Nat) :=
  match s.data with
  | y1 :: y2 :: y3 :: y4 :: '-' :: rest =>
    if isDigit y1 ∧ isDigit y2 ∧ isDigit y3 ∧ isDigit y4 then
      let y := 1000 * digitVal y1 + 100 * digitVal y2 + 10 * digitVal y3 + digitVal y4
      match matchMonth rest with
      | some (m, '-' :: rest2) =>
        match matchDay rest2 with
        | some (d, []) =>
            if 1 ≤ y then
              if d ≤ daysInMonth y m then .ok (y, m, d)
              else .error (.valueError "day is out of range for month")
            else .error (.valueError "year 0 is out of range")
        | some (_, _ :: _) => .error (.valueError "unconverted data remains")
        | none => .error (.valueError "time data does not match format")
      | _ => .error (.valueError "time data does not match format")
    else .error (.valueError "time data does not match format")
  | _ => .error (.valueError "time data does not match format")

/-- Days from 1970-01-01 to the civil date y-m-d (proleptic Gregorian),
via the standard days-from-civil computation. -/
def daysFromCivil (y m d : Nat) : Int :=
  let y' := if m ≤ 2 then y - 1 else y
  let era := y' / 400
  let yoe := y' % 400
  let mp := if m > 2 then m - 3 else m + 9
  let doy := (153 * mp + 2) / 5 + d - 1
  let doe := yoe * 365 + yoe / 4 - yoe / 100 + doy
  (era * 146097 + doe : Int) - 719468

/-- Model of `int(datetime.strptime(s, "%Y-%m-%d").timestamp() * 1000)`:
the millisecond epoch of midnight (modelled UTC) of the parsed date, or the
`ValueError` raised by `strptime`. -/
def strptime_ts_ms (s : String) : Except PyError Int :=
  (strptimeYmd s).map (fun v => daysFromCivil v.1 v.2.1 v.2.2 * 86400000)

/-- The `interval` argument of `get_historical_quotes`, one of the fixed
literal values accepted by the source's type annotation. -/
inductive HistInterval where
  | m1 | m5 | m15 | m30 | h1 | h2 | h6 | h12 | d1
deriving DecidableEq, Repr

/-- Slug resolution of `get_historical_quotes` (lines 46 and 49 of
`coincap_utils.py`): `asset_id = symbol.lower()` then
`symbol_to_slug.get(asset_id, asset_id)`. -/
def hist_slug (symbol : String) : String :=
  dictGetD symbol_to_slug (pyLower symbol) (pyLower symbol)

/-- The endpoint f-string of `get_historical_quotes` (line 49). -/
def hist_endpoint (symbol : String) : String :=
  "/v3/assets/" ++ hist_slug symbol ++ "/history"

/-- The request URL of `get_historical_quotes` (line 50). -/
def hist_url (symbol : String) : String := base_url ++ hist_endpoint symbol

/-- Slug resolution of `get_macd` (line 107):
`symbol_to_slug.get(symbol.lower(), symbol.lower())`. -/
def macd_slug (symbol : String) : String :=
  dictGetD symbol_to_slug (pyLower symbol) (pyLower symbol)

/-- The request URL of `get_macd` (line 108). -/
def macd_url (symbol : String) : String :=
  base_url ++ "/v3/ta/" ++ macd_slug symbol ++ "/macd"

/-- The query parameters of a `get_historical_quotes` request
(`params = {"interval": interval, "start": start_ts, "end": end_ts}`). -/
structure HistRequest where
  url : String
  interval : HistInterval
  startMs : Int
  endMs : Int
deriving DecidableEq, Repr

/-- The request-construction part of `get_historical_quotes` (lines 41-52):
date conversion, slug resolution, URL and query parameters. A `ValueError`
from `strptime` escapes before any request exists. -/
def histRequest (symbol start_date end_date : String) (interval : HistInterval) :
    Except PyError HistRequest := do
  let start_ts ← strptime_ts_ms start_date
  let end_ts ← strptime_ts_ms end_date
  pure { url := hist_url symbol, interval := interval,
         startMs := start_ts, endMs := end_ts }

/-- One element of the response's `data` array as consumed by the parsing
loop of `get_historical_quotes`: its `date` and `priceUsd` fields. -/
structure RawQuote where
  date : JsonDate
  priceUsd : JsonNum
deriving DecidableEq, Repr

/-- The JSON body of a 2xx response to a `get_historical_quotes` request:
the `data` key with its array, or `none` when the key is absent. -/
structure HistBody where
  data? : Option (List RawQuote)
deriving DecidableEq, Repr

/-- One row of the DataFrame built by `get_historical_quotes`: the `Date`
index value and the `Price USD` column. -/
structure HistRow where
  date : Int
  priceUsd : PyNum
deriving DecidableEq, Repr

/-- The per-quote row construction of `get_historical_quotes` (lines 89-95):
`datetime.fromisoformat(quote["date"])` and `float(quote["priceUsd"])`. -/
def parseQuote (q : RawQuote) : Except PyError HistRow := do
  let d ← q.date.fromisoformat
  let p ← q.priceUsd.toFloat
  pure { date := d, priceUsd := p }

/-- The row-building loop of `get_historical_quotes` (lines 87-95), which
appends one row per element of `data["data"]` in order; an exception from a
conversion propagates. -/
def buildHistRows : List RawQuote → Except PyError (List HistRow)
  | [] => .ok []
  | q :: rest => do
    let r ← parseQuote q
    let rs ← buildHistRows rest
    pure (r :: rs)

/-- The response-handling part of `get_historical_quotes` (lines 61-100):
the three `except` clauses return an empty DataFrame; so does the guard
`if "data" not in data or not data["data"]`; otherwise the rows are built
from `data["data"]` in order (`set_index` keeps row order). -/
def histResponse (net : NetOutcome HistBody) : Except PyError (List HistRow) :=
  match net with
  | .httpError => .ok []
  | .timeout => .ok []
  | .connectionError => .ok []
  | .success data =>
    match data.data? with
    | none => .ok []
    | some [] => .ok []
    | some quotes => buildHistRows quotes

/-- Model of `get_historical_quotes(symbol, start_date, end_date, interval)`
of `coincap_utils.py`: request construction (which can raise `ValueError`
on a malformed date before any request is issued), then handling of the
network outcome `net` of the single GET to `hist_url symbol`. The returned
list is the DataFrame's rows in order; `.ok []` is the empty DataFrame. -/
def get_historical_quotes (symbol start_date end_date : String)
    (interval : HistInterval) (net : NetOutcome HistBody) :
    Except PyError (List HistRow) := do
  let _req ← histRequest symbol start_date end_date interval
  histResponse net

/-- One element of the response's `macd` array as consumed by the parsing
loop of `get_macd`: its `date`, `macd`, `signal` and `histogram` fields. -/
structure RawMacdEntry where
  date : JsonDate
  macd : JsonNum
  signal : JsonNum
  histogram : JsonNum
deriving DecidableEq, Repr

/-- The JSON body of a 2xx response to a `get_macd` request. The source
only tests the `data` key for presence and truthiness (`"data" not in data
or not data["data"]`), so that key is modelled as `Option Bool`
(present with the given truthiness, or absent); the rows are built from the
separate `macd` key, modelled as its array or `none` when absent. -/
structure MacdBody where
  data? : Option Bool
  macd? : Option (List RawMacdEntry)
deriving DecidableEq, Repr

/-- One row of the DataFrame built by `get_macd`: the `Date` index value
and the `MACD`, `Signal` and `Histogram` columns. -/
structure MacdRow where
  date : Int
  macd : PyNum
  signal : PyNum
  histogram : PyNum
deriving DecidableEq, Repr

/-- The per-entry row construction of `get_macd` (lines 146-153). -/
def parseMacdEntry (e : RawMacdEntry) : Except PyError MacdRow := do
  let d ← e.date.fromisoformat
  let m ← e.macd.toFloat
  let s ← e.signal.toFloat
  let h ← e.histogram.toFloat
  pure { date := d, macd := m, signal := s, histogram := h }

/-- The row-building loop of `get_macd` (lines 143-153). -/
def buildMacdRows : List RawMacdEntry → Except PyError (List MacdRow)
  | [] => .ok []
  | e :: rest => do
    let r ← parseMacdEntry e
    let rs ← buildMacdRows rest
    pure (r :: rs)

/-- Model of `get_macd(symbol)` of `coincap_utils.py`: slug resolution and
URL (lines 107-108), then handling of the network outcome of the single GET
to `macd_url symbol`. The three `except` clauses and the guard on the
`data` key return an empty DataFrame; otherwise `macd_array = data["macd"]`
raises `KeyError` when the `macd` key is absent, else the rows are built
from it in order. -/
def get_macd (symbol : String) (net : NetOutcome MacdBody) :
    Except PyError (List MacdRow) :=
  let _url := macd_url symbol
  match net with
  | .httpError => .ok []
  | .timeout => .ok []
  | .connectionError => .ok []
  | .success data =>
    match data.data? with
    | some true =>
      match data.macd? with
      | none => .error .keyError
      | some macd_array => buildMacdRows macd_array
    | _ => .ok []

/-- Whether a `data` array element has the shape the parsing loop of
`get_historical_quotes` converts without raising. -/
def RawQuote.wellFormed : RawQuote → Bool
  | { date := .iso _, priceUsd := .num _ } => true
  | _ => false

/-- Timeline position of a well-formed quote's `date` field. -/
def RawQuote.ts : RawQuote → Int
  | { date := .iso t, priceUsd := _ } => t
  | { date := .malformed, priceUsd := _ } => 0

/-- Float value of a well-formed quote's `priceUsd` field. -/
def RawQuote.priceVal : RawQuote → PyNum
  | { date := _, priceUsd := .num v } => v
  | _ => .nan

/-- The row a well-formed quote contributes to the DataFrame. -/
def RawQuote.row (q : RawQuote) : HistRow :=
  { date := q.ts, priceUsd := q.priceVal }

/-- Whether a quote's `priceUsd` field converts to a finite float. -/
def RawQuote.finitePrice (q : RawQuote) : Bool := q.priceVal.isFinite

/-- Whether a `macd` array element has the shape the parsing loop of
`get_macd` converts without raising. -/
def RawMacdEntry.wellFormed : RawMacdEntry → Bool
  | { date := .iso _, macd := .num _, signal := .num _, histogram := .num _ } => true
  | _ => false

/-- Timeline position of a well-formed MACD entry's `date` field. -/
def RawMacdEntry.ts : RawMacdEntry → Int
  | { date := .iso t, macd := _, signal := _, histogram := _ } => t
  | _ => 0

/-- Float value of a MACD entry's `macd` field. -/
def RawMacdEntry.macdVal : RawMacdEntry → PyNum
  | { macd := .num v, date := _, signal := _, histogram := _ } => v
  | _ => .nan

/-- Float value of a MACD entry's `signal` field. -/
def RawMacdEntry.signalVal : RawMacdEntry → PyNum
  | { signal := .num v, date := _, macd := _, histogram := _ } => v
  | _ => .nan

/-- Float value of a MACD entry's `histogram` field. -/
def RawMacdEntry.histogramVal : RawMacdEntry → PyNum
  | { histogram := .num v, date := _, macd := _, signal := _ } => v
  | _ => .nan

/-- The row a well-formed MACD entry contributes to the DataFrame. -/
def RawMacdEntry.row (e : RawMacdEntry) : MacdRow :=
  { date := e.ts, macd := e.macdVal, signal := e.signalVal,
    histogram := e.histogramVal }

/-- Whether all three numeric fields of a MACD entry convert to finite floats. -/
def RawMacdEntry.allFinite (e : RawMacdEntry) : Bool :=
  e.macdVal.isFinite && e.signalVal.isFinite && e.histogramVal.isFinite

/-- Whether a list of timestamps is non-decreasing in list order. -/
def datesNondecreasing : List Int → Bool
  | [] => true
  | [_] => true
  | a :: b :: rest => a ≤ b && datesNondecreasing (b :: rest)

/-- The row-building loop of `get_historical_quotes` maps each well-formed
quote to its row, in order. -/
theorem buildHistRows_wf (qs : List RawQuote) (h : ∀ q ∈ qs, q.wellFormed = true) :
    buildHistRows qs = .ok (qs.map RawQuote.row) := by
  induction qs with
  | nil => rfl
  | cons q rest ih =>
    have hq : q.wellFormed = true := h q (List.mem_cons_self _ _)
    have hrest : ∀ x ∈ rest, x.wellFormed = true := fun x hx =>
      h x (List.mem_cons_of_mem _ hx)
    obtain ⟨d, p⟩ := q
    cases d with
    | malformed => simp [RawQuote.wellFormed] at hq
    | iso t =>
      cases p with
      | num v =>
        simp only [buildHistRows, parseQuote, JsonDate.fromisoformat, JsonNum.toFloat,
          List.map_cons, bind, Except.bind, pure, Except.pure, ih hrest]
        rfl
      | null => simp [RawQuote.wellFormed] at hq
      | malformed => simp [RawQuote.wellFormed] at hq

/-- The row-building loop of `get_macd` maps each well-formed entry to its
row, in order. -/
theorem buildMacdRows_wf (es : List RawMacdEntry)
    (h : ∀ e ∈ es, e.wellFormed = true) :
    buildMacdRows es = .ok (es.map RawMacdEntry.row) := by
  induction es with
  | nil => rfl
  | cons e rest ih =>
    have he : e.wellFormed = true := h e (List.mem_cons_self _ _)
    have hrest : ∀ x ∈ rest, x.wellFormed = true := fun x hx =>
      h x (List.mem_cons_of_mem _ hx)
    obtain ⟨d, m, sg, hg⟩ := e
    cases d with
    | malformed => simp [RawMacdEntry.wellFormed] at he
    | iso t =>
      cases m with
      | null => simp [RawMacdEntry.wellFormed] at he
      | malformed => simp [RawMacdEntry.wellFormed] at he
      | num mv =>
        cases sg with
        | null => simp [RawMacdEntry.wellFormed] at he
        | malformed => simp [RawMacdEntry.wellFormed] at he
        | num sv =>
          cases hg with
          | null => simp [RawMacdEntry.wellFormed] at he
          | malformed => simp [RawMacdEntry.wellFormed] at he
          | num hv =>
            simp only [buildMacdRows, parseMacdEntry, JsonDate.fromisoformat,
              JsonNum.toFloat, List.map_cons, bind, Except.bind, pure,
              Except.pure, ih hrest]
            rfl

/-- Every failure of the `%Y-%m-%d` parse is a `ValueError`, as every raise
site in `strptime` and the `datetime` constructor is one. -/
theorem strptimeYmd_error_valueError (s : String) (e : PyError)
    (h : strptimeYmd s = .error e) : ∃ msg, e = .valueError msg := by
  unfold strptimeYmd at h
  repeat' split at h
  all_goals (try (dsimp only at h; repeat' split at h))
  all_goals (simp at h; try exact ⟨_, h.symm⟩)

/-- The `data_period` component of the agent payload: the caller's start
and end strings. -/
structure DataPeriod where
  start : String
  «end» : String
deriving DecidableEq, Repr

/-- One OHLCV candle row of the Fundamentals Client's historical table. -/
structure OhlcvRow where
  date : Int
  Open : PyNum
  High : PyNum
  Low : PyNum
  Close : PyNum
  Volume : PyNum
deriving DecidableEq, Repr

/-- The composite agent payload built by `format_crypto_data_for_agents`. -/
structure AgentPayload where
  ticker : String
  price_data : List OhlcvRow
  fundamentals : List (String × PyNum)
  market_metrics : List (String × PyNum)
  data_period : DataPeriod
deriving DecidableEq, Repr

/-- Modelled from the spec: `format_crypto_data_for_agents(symbol, start, end)`
of `coinmarketcap_utils.py`, a module absent from the sources (only its
tests are present). Per the spec it returns the composite payload
`{ticker, price_data, fundamentals, market_metrics, data_period: {start, end}}`
where `data_period` echoes the caller's literal input strings unmodified.
The network-derived components (price data, fundamentals dict, market
metrics dict) are taken as arguments here, since for them the free function
only delegates to the client operations. -/
def format_crypto_data_for_agents (symbol start «end» : String)
    (price_data : List OhlcvRow)
    (fundamentals market_metrics : List (String × PyNum)) : AgentPayload :=
  { ticker := symbol, price_data := price_data, fundamentals := fundamentals,
    market_metrics := market_metrics,
    data_period := { start := start, «end» := «end» } }

/-- The Fundamentals Client object: per the spec it holds `api_key` and
`base_url`. -/
structure CoinMarketCapAPI where
  api_key : String
  base_url : String
deriving DecidableEq, Repr

/-- Modelled from the spec: the class constant `BASE_URL` of
`CoinMarketCapAPI` (its exact value is immaterial to every claim). -/
def CoinMarketCapAPI.BASE_URL : String := "https://pro-api.coinmarketcap.com"

/-- Modelled from the spec: the `CoinMarketCapAPI` constructor of
`coinmarketcap_utils.py` (absent from the sources). Its arguments are the
optional explicit key argument and the optional environment value
`COINMARKETCAP_API_KEY`; per the spec the client "fails fast at
construction if no key is available from the call or from environment
configuration", with the `ValueError` message the test matches
(`"API key not provided"`). The second component of the result lists the
HTTP requests performed during construction: the constructor performs
none. -/
def CoinMarketCapAPI.init (api_key env_api_key : Option String) :
    Except PyError CoinMarketCapAPI × List String :=
  match api_key.orElse (fun _ => env_api_key) with
  | some k => (.ok { api_key := k, base_url := CoinMarketCapAPI.BASE_URL }, [])
  | none => (.error (.valueError "API key not provided"), [])

/-- Modelled from the spec: `get_crypto_id(symbol)` of
`coinmarketcap_utils.py` (absent from the sources): lookup of the symbol in
the client's symbol-to-numeric-ID directory (the map fetched by
`get_crypto_map()`, passed here as `crypto_map`), case-normalized to the
provider's uppercase keys; per the spec it "fails with a 'not found' error
when the symbol is absent from the map (not silently substituted)". -/
def get_crypto_id (crypto_map : List (String × Int)) (symbol : String) :
    Except PyError Int :=
  match crypto_map.lookup (pyUpper symbol) with
  | some i => .ok i
  | none => .error (.valueError (pyUpper symbol ++ " not found"))

/-- Strict `YYYY-MM-DD` form, following the claim's words rather than the
source: exactly four digits, a dash, exactly two digits, a dash, exactly
two digits, denoting a calendar-valid zero-padded date. -/
def strictYYYYMMDD (s : String) : Bool :=
  match s.data with
  | [a, b, c, d, '-', e, f, '-', g, h] =>
    isDigit a && isDigit b && isDigit c && isDigit d && isDigit e &&
    isDigit f && isDigit g && isDigit h &&
    (let y := 1000 * digitVal a + 100 * digitVal b + 10 * digitVal c + digitVal d
     let m := 10 * digitVal e + digitVal f
     let dd := 10 * digitVal g + digitVal h
     decide (1 ≤ y) && decide (1 ≤ m) && decide (m ≤ 12) &&
     decide (1 ≤ dd) && decide (dd ≤ daysInMonth y m))
  | _ => false

/-- C1: for every symbol and (parseable) date-range input, when the single
HTTP GET fails with a connection error, a timeout, or a non-2xx status,
both `get_historical_quotes` and `get_macd` return an empty table and raise
no exception. -/
theorem market_failures_yield_empty
    (symbol start_date end_date : String) (interval : HistInterval)
    (net : NetOutcome HistBody) (netm : NetOutcome MacdBody)
    (v1 v2 : Nat × Nat × Nat)
    (hsd : strptimeYmd start_date = .ok v1)
    (hed : strptimeYmd end_date = .ok v2)
    (hf : net.isFailure = true) (hfm : netm.isFailure = true) :
    get_historical_quotes symbol start_date end_date interval net = .ok [] ∧
    get_macd symbol netm = .ok [] := by
  constructor
  · cases net with
    | success b => simp [NetOutcome.isFailure] at hf
    | httpError =>
        simp [get_historical_quotes, histRequest, strptime_ts_ms, hsd, hed,
          Except.map, bind, Except.bind, pure, Except.pure, histResponse]
    | timeout =>
        simp [get_historical_quotes, histRequest, strptime_ts_ms, hsd, hed,
          Except.map, bind, Except.bind, pure, Except.pure, histResponse]
    | connectionError =>
        simp [get_historical_quotes, histRequest, strptime_ts_ms, hsd, hed,
          Except.map, bind, Except.bind, pure, Except.pure, histResponse]
  · cases netm with
    | success b => simp [NetOutcome.isFailure] at hfm
    | httpError => rfl
    | timeout => rfl
    | connectionError => rfl

/-- Witness for C1 at concrete inputs. -/
theorem market_failures_yield_empty_witness :
    get_historical_quotes "BTC" "2024-01-01" "2024-01-31" .h1 .timeout = .ok [] ∧
    get_macd "BTC" .connectionError = .ok [] :=
  market_failures_yield_empty "BTC" "2024-01-01" "2024-01-31" .h1 .timeout
    .connectionError (2024, 1, 1) (2024, 1, 31) rfl rfl rfl rfl

/-- C2 counterexample: a successful `get_macd` response whose `data` field
is present and truthy but whose `macd` key is absent makes `get_macd` raise
`KeyError` instead of returning an empty table. -/
theorem macd_missing_key_raises_cex :
    get_macd "BTC" (.success { data? := some true, macd? := none }) =
      .error .keyError := rfl

/-- C2 (amended): `get_historical_quotes` returns an empty table and never
raises when its `data` key is absent or its array empty; `get_macd` returns
an empty table and never raises when its `data` key is absent or falsy, but
when `data` is present and truthy it reads the separate `macd` key and
raises `KeyError` if that key is absent. -/
theorem no_usable_data_yields_empty
    (symbol start_date end_date : String) (interval : HistInterval)
    (v1 v2 : Nat × Nat × Nat)
    (hsd : strptimeYmd start_date = .ok v1)
    (hed : strptimeYmd end_date = .ok v2)
    (b : HistBody) (hb : b.data? = none ∨ b.data? = some [])
    (mb : MacdBody) (hmb : mb.data? = none ∨ mb.data? = some false)
    (mb' : MacdBody) (hd : mb'.data? = some true) (hm : mb'.macd? = none) :
    get_historical_quotes symbol start_date end_date interval (.success b) = .ok [] ∧
    get_macd symbol (.success mb) = .ok [] ∧
    get_macd symbol (.success mb') = .error .keyError := by
  refine ⟨?_, ?_, ?_⟩
  · rcases hb with hb | hb <;>
      simp [get_historical_quotes, histRequest, strptime_ts_ms, hsd, hed,
        Except.map, bind, Except.bind, pure, Except.pure, histResponse, hb]
  · rcases hmb with hmb | hmb <;> simp [get_macd, hmb]
  · simp [get_macd, hd, hm]

/-- Witness for C2's amended theorem at concrete inputs. -/
theorem no_usable_data_yields_empty_witness :
    get_historical_quotes "BTC" "2024-01-01" "2024-01-31" .h1
      (.success { data? := none }) = .ok [] ∧
    get_macd "BTC" (.success { data? := some false, macd? := some [] }) = .ok [] ∧
    get_macd "BTC" (.success { data? := some true, macd? := none }) =
      .error .keyError :=
  no_usable_data_yields_empty "BTC" "2024-01-01" "2024-01-31" .h1
    (2024, 1, 1) (2024, 1, 31) rfl rfl
    { data? := none } (Or.inl rfl)
    { data? := some false, macd? := some [] } (Or.inr rfl)
    { data? := some true, macd? := none } rfl rfl

/-- C3 counterexample: a successful `get_macd` response whose `macd` array
holds one well-formed data point but whose `data` key is absent yields a
table with zero rows, not one row. -/
theorem macd_row_count_mismatch_cex :
    get_macd "BTC" (.success ⟨none, some [⟨.iso 0, .num (.finite 1), .num (.finite 1), .num (.finite 0)⟩]⟩) = .ok [] ∧
    ([⟨.iso 0, .num (.finite 1), .num (.finite 1), .num (.finite 0)⟩] : List RawMacdEntry).length = 1 ∧
    ([] : List MacdRow).length = 0 :=
  ⟨rfl, rfl, rfl⟩

/-- C3 (amended): on a successful response, `get_historical_quotes` returns
one row per well-formed point of the `data` array, with timestamps in the
array's order; `get_macd` does the same with the `macd` array, but only
when the separate `data` key is present and truthy. -/
theorem rows_one_per_data_point
    (symbol start_date end_date : String) (interval : HistInterval)
    (v1 v2 : Nat × Nat × Nat)
    (hsd : strptimeYmd start_date = .ok v1)
    (hed : strptimeYmd end_date = .ok v2)
    (qs : List RawQuote) (hqs : ∀ q ∈ qs, q.wellFormed = true)
    (es : List RawMacdEntry) (hes : ∀ e ∈ es, e.wellFormed = true) :
    get_historical_quotes symbol start_date end_date interval
      (.success ⟨some qs⟩) = .ok (qs.map RawQuote.row) ∧
    (qs.map RawQuote.row).length = qs.length ∧
    (qs.map RawQuote.row).map HistRow.date = qs.map RawQuote.ts ∧
    get_macd symbol (.success ⟨some true, some es⟩) =
      .ok (es.map RawMacdEntry.row) ∧
    (es.map RawMacdEntry.row).length = es.length ∧
    (es.map RawMacdEntry.row).map MacdRow.date = es.map RawMacdEntry.ts := by
  refine ⟨?_, List.length_map _ _, ?_, ?_, List.length_map _ _, ?_⟩
  · cases qs with
    | nil =>
        simp [get_historical_quotes, histRequest, strptime_ts_ms, hsd, hed,
          Except.map, bind, Except.bind, pure, Except.pure, histResponse]
    | cons q rest =>
        simp [get_historical_quotes, histRequest, strptime_ts_ms, hsd, hed,
          Except.map, bind, Except.bind, pure, Except.pure, histResponse,
          buildHistRows_wf _ hqs]
  · rw [List.map_map]; rfl
  · cases es with
    | nil => rfl
    | cons e rest => simp [get_macd, buildMacdRows_wf _ hes]
  · rw [List.map_map]; rfl

/-- Witness for C3's amended theorem at concrete inputs. -/
theorem rows_one_per_data_point_witness :
    get_historical_quotes "BTC" "2024-01-01" "2024-01-31" .h1
      (.success ⟨some [⟨.iso 10, .num (.finite 5)⟩, ⟨.iso 20, .num (.finite 6)⟩]⟩) =
      .ok (([⟨.iso 10, .num (.finite 5)⟩, ⟨.iso 20, .num (.finite 6)⟩] : List RawQuote).map RawQuote.row) ∧
    (([⟨.iso 10, .num (.finite 5)⟩, ⟨.iso 20, .num (.finite 6)⟩] : List RawQuote).map RawQuote.row).length = ([⟨.iso 10, .num (.finite 5)⟩, ⟨.iso 20, .num (.finite 6)⟩] : List RawQuote).length ∧
    (([⟨.iso 10, .num (.finite 5)⟩, ⟨.iso 20, .num (.finite 6)⟩] : List RawQuote).map RawQuote.row).map HistRow.date = ([⟨.iso 10, .num (.finite 5)⟩, ⟨.iso 20, .num (.finite 6)⟩] : List RawQuote).map RawQuote.ts ∧
    get_macd "BTC" (.success ⟨some true, some [⟨.iso 7, .num (.finite 2), .num (.finite 1), .num (.finite 1)⟩]⟩) =
      .ok (([⟨.iso 7, .num (.finite 2), .num (.finite 1), .num (.finite 1)⟩] : List RawMacdEntry).map RawMacdEntry.row) ∧
    (([⟨.iso 7, .num (.finite 2), .num (.finite 1), .num (.finite 1)⟩] : List RawMacdEntry).map RawMacdEntry.row).length = ([⟨.iso 7, .num (.finite 2), .num (.finite 1), .num (.finite 1)⟩] : List RawMacdEntry).length ∧
    (([⟨.iso 7, .num (.finite 2), .num (.finite 1), .num (.finite 1)⟩] : List RawMacdEntry).map RawMacdEntry.row).map MacdRow.date = ([⟨.iso 7, .num (.finite 2), .num (.finite 1), .num (.finite 1)⟩] : List RawMacdEntry).map RawMacdEntry.ts :=
  rows_one_per_data_point "BTC" "2024-01-01" "2024-01-31" .h1
    (2024, 1, 1) (2024, 1, 31) rfl rfl _ (by decide) _ (by decide)

/-- C4: for every symbol whose lowercase form is a key of `symbol_to_slug`,
every case variant of the symbol (any string with the same lowercase form)
resolves to the same mapped slug, in the slug resolution of both
`get_historical_quotes` and `get_macd`. -/
theorem slug_resolution_case_insensitive (s t slug : String)
    (hst : pyLower s = pyLower t)
    (hmap : symbol_to_slug.lookup (pyLower s) = some slug) :
    hist_slug s = slug ∧ hist_slug t = slug ∧
    macd_slug s = slug ∧ macd_slug t = slug := by
  have hmap' : symbol_to_slug.lookup (pyLower t) = some slug := hst ▸ hmap
  simp [hist_slug, macd_slug, dictGetD, hmap, hmap']

/-- Witness for C4 at the case variants BTC and Btc of btc. -/
theorem slug_resolution_case_insensitive_witness :
    hist_slug "BTC" = "bitcoin" ∧ hist_slug "Btc" = "bitcoin" ∧
    macd_slug "BTC" = "bitcoin" ∧ macd_slug "Btc" = "bitcoin" :=
  slug_resolution_case_insensitive "BTC" "Btc" "bitcoin" rfl rfl

/-- C5: for a symbol whose lowercase form is absent from `symbol_to_slug`,
the Market Data Client's resolution does not fail and both request URLs use
the lowercased symbol itself as the provider slug (request construction
succeeds whenever the dates parse); under the analogous condition on the
Fundamentals Client's own symbol directory, `get_crypto_id` fails with a
"not found" error rather than substituting a value. -/
theorem unknown_symbol_fallback_and_not_found
    (sym start_date end_date : String) (interval : HistInterval)
    (v1 v2 : Nat × Nat × Nat)
    (hsd : strptimeYmd start_date = .ok v1)
    (hed : strptimeYmd end_date = .ok v2)
    (habs : symbol_to_slug.lookup (pyLower sym) = none)
    (crypto_map : List (String × Int))
    (habs2 : crypto_map.lookup (pyUpper sym) = none) :
    hist_slug sym = pyLower sym ∧
    macd_slug sym = pyLower sym ∧
    histRequest sym start_date end_date interval =
      .ok ⟨base_url ++ "/v3/assets/" ++ pyLower sym ++ "/history", interval,
           daysFromCivil v1.1 v1.2.1 v1.2.2 * 86400000,
           daysFromCivil v2.1 v2.2.1 v2.2.2 * 86400000⟩ ∧
    macd_url sym = base_url ++ "/v3/ta/" ++ pyLower sym ++ "/macd" ∧
    get_crypto_id crypto_map sym = .error (.valueError (pyUpper sym ++ " not found")) := by
  refine ⟨?_, ?_, ?_, ?_, ?_⟩
  · simp [hist_slug, dictGetD, habs]
  · simp [macd_slug, dictGetD, habs]
  · simp [histRequest, strptime_ts_ms, hsd, hed, Except.map, bind, Except.bind,
      pure, Except.pure, hist_url, hist_endpoint, hist_slug, dictGetD, habs]
    rfl
  · simp [macd_url, macd_slug, dictGetD, habs]
  · simp [get_crypto_id, habs2]

/-- Witness for C5 at a concrete unknown symbol. -/
theorem unknown_symbol_fallback_and_not_found_witness :
    hist_slug "DOGE" = pyLower "DOGE" ∧
    macd_slug "DOGE" = pyLower "DOGE" ∧
    histRequest "DOGE" "2024-01-01" "2024-01-31" .h1 =
      .ok ⟨base_url ++ "/v3/assets/" ++ pyLower "DOGE" ++ "/history", .h1,
           daysFromCivil 2024 1 1 * 86400000, daysFromCivil 2024 1 31 * 86400000⟩ ∧
    macd_url "DOGE" = base_url ++ "/v3/ta/" ++ pyLower "DOGE" ++ "/macd" ∧
    get_crypto_id [("BTC", 1), ("ETH", 1027)] "DOGE" =
      .error (.valueError (pyUpper "DOGE" ++ " not found")) :=
  unknown_symbol_fallback_and_not_found "DOGE" "2024-01-01" "2024-01-31" .h1
    (2024, 1, 1) (2024, 1, 31) rfl rfl rfl [("BTC", 1), ("ETH", 1027)] rfl

/-- All-predicate over a mapped list, for maps between different types. -/
theorem list_all_map_comp (l : List α) (f : α → β) (p : β → Bool) :
    (l.map f).all p = l.all (p ∘ f) := by
  induction l with
  | nil => rfl
  | cons a l ih => simp [List.all_cons, ih]

/-- C6 counterexample: with start and end both 2024-01-01, both query
bounds equal the millisecond epoch 1704067200000 of midnight at the start
of that date, while the last millisecond of the end date is 1704153599999:
the window excludes the whole interior of the end date, so the bounds do
not cover the inclusive day-granularity range. -/
theorem end_bound_excludes_end_day_cex :
    histRequest "BTC" "2024-01-01" "2024-01-01" .h1 =
      .ok ⟨"https://rest.coincap.io/v3/assets/bitcoin/history", .h1, 1704067200000, 1704067200000⟩ ∧
    (1704067200000 : Int) + 86400000 - 1 = 1704153599999 ∧
    (1704067200000 : Int) < 1704153599999 :=
  ⟨rfl, by decide, by decide⟩

/-- C6 (amended): for every pair of parseable dates, the start query bound
is the millisecond epoch of midnight at the beginning of the start date and
the end query bound is the millisecond epoch of midnight at the beginning
of the end date, so the interior of the end date lies beyond the end
bound. -/
theorem epoch_bounds_are_day_starts
    (symbol start_date end_date : String) (interval : HistInterval)
    (y1 m1 d1 y2 m2 d2 : Nat)
    (hsd : strptimeYmd start_date = .ok (y1, m1, d1))
    (hed : strptimeYmd end_date = .ok (y2, m2, d2)) :
    histRequest symbol start_date end_date interval =
      .ok ⟨hist_url symbol, interval, daysFromCivil y1 m1 d1 * 86400000,
           daysFromCivil y2 m2 d2 * 86400000⟩ ∧
    daysFromCivil y2 m2 d2 * 86400000 <
      daysFromCivil y2 m2 d2 * 86400000 + 86399999 := by
  constructor
  · simp [histRequest, strptime_ts_ms, hsd, hed, Except.map, bind, Except.bind,
      pure, Except.pure]
  · omega

/-- Witness for C6's amended theorem at concrete dates. -/
theorem epoch_bounds_are_day_starts_witness :
    histRequest "BTC" "2024-02-29" "2024-03-01" .d1 =
      .ok ⟨hist_url "BTC", .d1, daysFromCivil 2024 2 29 * 86400000,
           daysFromCivil 2024 3 1 * 86400000⟩ ∧
    daysFromCivil 2024 3 1 * 86400000 <
      daysFromCivil 2024 3 1 * 86400000 + 86399999 :=
  epoch_bounds_are_day_starts "BTC" "2024-02-29" "2024-03-01" .d1
    2024 2 29 2024 3 1 rfl rfl

/-- C7 counterexample: a successful response whose two well-formed data
points carry decreasing timestamps and a NaN price yields a table whose
rows mirror them unchanged: its timestamps are not non-decreasing and its
numeric fields are not all finite. -/
theorem table_mirrors_provider_cex :
    get_historical_quotes "BTC" "2024-01-01" "2024-01-02" .h1
      (.success ⟨some [⟨.iso 1, .num (.finite 1)⟩, ⟨.iso 0, .num .nan⟩]⟩) =
      .ok [⟨1, .finite 1⟩, ⟨0, .nan⟩] ∧
    datesNondecreasing (([⟨1, .finite 1⟩, ⟨0, .nan⟩] : List HistRow).map HistRow.date) = false ∧
    ([⟨1, .finite 1⟩, ⟨0, .nan⟩] : List HistRow).all (fun r => r.priceUsd.isFinite) = false :=
  ⟨rfl, rfl, rfl⟩

/-- C7 (amended): the functions neither re-sort nor filter, so the returned
table has non-decreasing timestamps and all-finite numeric fields exactly
when the provider's array already does; a null or non-numeric field raises
during conversion instead of producing a row, so no row holds a null. -/
theorem invariants_conditional_on_provider
    (symbol start_date end_date : String) (interval : HistInterval)
    (v1 v2 : Nat × Nat × Nat)
    (hsd : strptimeYmd start_date = .ok v1)
    (hed : strptimeYmd end_date = .ok v2)
    (qs : List RawQuote) (hqs : ∀ q ∈ qs, q.wellFormed = true)
    (hord : datesNondecreasing (qs.map RawQuote.ts) = true)
    (hfin : qs.all RawQuote.finitePrice = true)
    (es : List RawMacdEntry) (hes : ∀ e ∈ es, e.wellFormed = true)
    (hordm : datesNondecreasing (es.map RawMacdEntry.ts) = true)
    (hfinm : es.all RawMacdEntry.allFinite = true) :
    get_historical_quotes symbol start_date end_date interval
      (.success ⟨some qs⟩) = .ok (qs.map RawQuote.row) ∧
    datesNondecreasing ((qs.map RawQuote.row).map HistRow.date) = true ∧
    (qs.map RawQuote.row).all (fun r => r.priceUsd.isFinite) = true ∧
    get_macd symbol (.success ⟨some true, some es⟩) =
      .ok (es.map RawMacdEntry.row) ∧
    datesNondecreasing ((es.map RawMacdEntry.row).map MacdRow.date) = true ∧
    (es.map RawMacdEntry.row).all
      (fun r => r.macd.isFinite && r.signal.isFinite && r.histogram.isFinite) = true := by
  refine ⟨?_, ?_, ?_, ?_, ?_, ?_⟩
  · cases qs with
    | nil =>
        simp [get_historical_quotes, histRequest, strptime_ts_ms, hsd, hed,
          Except.map, bind, Except.bind, pure, Except.pure, histResponse]
    | cons q rest =>
        simp [get_historical_quotes, histRequest, strptime_ts_ms, hsd, hed,
          Except.map, bind, Except.bind, pure, Except.pure, histResponse,
          buildHistRows_wf _ hqs]
  · rw [List.map_map]; exact hord
  · rw [list_all_map_comp]; exact hfin
  · cases es with
    | nil => rfl
    | cons e rest => simp [get_macd, buildMacdRows_wf _ hes]
  · rw [List.map_map]; exact hordm
  · rw [list_all_map_comp]; exact hfinm

/-- Witness for C7's amended theorem at concrete inputs. -/
theorem invariants_conditional_on_provider_witness :
    get_historical_quotes "BTC" "2024-01-01" "2024-01-31" .h1
      (.success ⟨some [⟨.iso 3, .num (.finite 9)⟩, ⟨.iso 4, .num (.finite 8)⟩]⟩) =
      .ok (([⟨.iso 3, .num (.finite 9)⟩, ⟨.iso 4, .num (.finite 8)⟩] : List RawQuote).map RawQuote.row) ∧
    datesNondecreasing ((([⟨.iso 3, .num (.finite 9)⟩, ⟨.iso 4, .num (.finite 8)⟩] : List RawQuote).map RawQuote.row).map HistRow.date) = true ∧
    (([⟨.iso 3, .num (.finite 9)⟩, ⟨.iso 4, .num (.finite 8)⟩] : List RawQuote).map RawQuote.row).all (fun r => r.priceUsd.isFinite) = true ∧
    get_macd "BTC" (.success ⟨some true, some [⟨.iso 5, .num (.finite 2), .num (.finite 1), .num (.finite 1)⟩]⟩) =
      .ok (([⟨.iso 5, .num (.finite 2), .num (.finite 1), .num (.finite 1)⟩] : List RawMacdEntry).map RawMacdEntry.row) ∧
    datesNondecreasing ((([⟨.iso 5, .num (.finite 2), .num (.finite 1), .num (.finite 1)⟩] : List RawMacdEntry).map RawMacdEntry.row).map MacdRow.date) = true ∧
    (([⟨.iso 5, .num (.finite 2), .num (.finite 1), .num (.finite 1)⟩] : List RawMacdEntry).map RawMacdEntry.row).all
      (fun r => r.macd.isFinite && r.signal.isFinite && r.histogram.isFinite) = true :=
  invariants_conditional_on_provider "BTC" "2024-01-01" "2024-01-31" .h1
    (2024, 1, 1) (2024, 1, 31) rfl rfl _ (by decide) (by decide) (by decide)
    _ (by decide) (by decide) (by decide)

/-- C8: for every symbol and every pair of start and end strings, the
payload returned by `format_crypto_data_for_agents` carries the caller's
symbol as `ticker`, the delegated components unchanged, and a `data_period`
equal to exactly the caller's literal start and end strings, with no
reparsing or reformatting. -/
theorem data_period_echoes_inputs (symbol start «end» : String)
    (price_data : List OhlcvRow)
    (fundamentals market_metrics : List (String × PyNum)) :
    format_crypto_data_for_agents symbol start «end» price_data fundamentals
      market_metrics =
      ⟨symbol, price_data, fundamentals, market_metrics, ⟨start, «end»⟩⟩ ∧
    (format_crypto_data_for_agents symbol start «end» price_data fundamentals
      market_metrics).data_period = ⟨start, «end»⟩ :=
  ⟨rfl, rfl⟩

/-- C9: constructing the Fundamentals Client with no explicit key argument
and no environment value fails with the configuration `ValueError` the test
expects, and its (empty) request trace shows that no network call is
attempted. -/
theorem cmc_init_without_key_fails_fast :
    (CoinMarketCapAPI.init none none).1 =
      .error (.valueError "API key not provided") ∧
    (CoinMarketCapAPI.init none none).2 = [] :=
  ⟨rfl, rfl⟩

/-- C10 counterexample: the string 2024-1-5 is not in zero-padded
YYYY-MM-DD form, yet the `%Y-%m-%d` parse accepts it, so
`get_historical_quotes` builds the request instead of raising
`ValueError`. -/
theorem unpadded_date_accepted_cex :
    strictYYYYMMDD "2024-1-5" = false ∧
    strptimeYmd "2024-1-5" = .ok (2024, 1, 5) ∧
    histRequest "BTC" "2024-1-5" "2024-1-5" .h1 =
      .ok ⟨"https://rest.coincap.io/v3/assets/bitcoin/history", .h1,
           1704412800000, 1704412800000⟩ :=
  ⟨rfl, rfl, rfl⟩

/-- C10 (amended): every start or end string rejected by the `%Y-%m-%d`
parse (which is looser than literal `YYYY-MM-DD`: it also accepts unpadded
one-digit months and days) makes `get_historical_quotes` raise that parse's
`ValueError` whatever the network would have answered — the network outcome
is never consulted, so no request is issued — rather than return an empty
table. -/
theorem malformed_dates_raise_before_request
    (symbol : String) (interval : HistInterval)
    (sdBad ed sdOk edBad : String) (e1 e2 : PyError) (v : Nat × Nat × Nat)
    (h1 : strptimeYmd sdBad = .error e1)
    (h2 : strptimeYmd sdOk = .ok v)
    (h3 : strptimeYmd edBad = .error e2)
    (net netB : NetOutcome HistBody) :
    get_historical_quotes symbol sdBad ed interval net = .error e1 ∧
    get_historical_quotes symbol sdOk edBad interval netB = .error e2 ∧
    (∃ msg, e1 = .valueError msg) ∧ (∃ msg, e2 = .valueError msg) := by
  refine ⟨?_, ?_, strptimeYmd_error_valueError _ _ h1,
    strptimeYmd_error_valueError _ _ h3⟩
  · simp [get_historical_quotes, histRequest, strptime_ts_ms, h1, Except.map,
      bind, Except.bind]
  · simp [get_historical_quotes, histRequest, strptime_ts_ms, h2, h3,
      Except.map, bind, Except.bind]

/-- Witness for C10's amended theorem at concrete inputs. -/
theorem malformed_dates_raise_before_request_witness :
    get_historical_quotes "BTC" "2024-13-01" "2024-01-31" .h1 .timeout =
      .error (.valueError "time data does not match format") ∧
    get_historical_quotes "BTC" "2024-01-01" "2024-02-30" .h1 .timeout =
      .error (.valueError "day is out of range for month") ∧
    (∃ msg, PyError.valueError "time data does not match format" = .valueError msg) ∧
    (∃ msg, PyError.valueError "day is out of range for month" = .valueError msg) :=
  malformed_dates_raise_before_request "BTC" .h1 "2024-13-01" "2024-01-31"
    "2024-01-01" "2024-02-30"
    (.valueError "time data does not match format")
    (.valueError "day is out of range for month")
    (2024, 1, 1) rfl rfl rfl .timeout .timeout
